import Mathlib

/-!
Shallow embedding of `src/app.py` (feishu-qwen-bot): a Flask webhook that
bridges Feishu event callbacks to the DashScope (Qwen) completion API.

Modelling conventions:
* JSON values are the inductive `JVal`; `json.loads` is embedded as the
  executable parser `loads` over a JSON subset (integers only, string
  escapes for quote/backslash/slash/n/t/r/b/f; no floats and no unicode
  escapes — none of the verified behaviour depends on those literals).
* Python exceptions are explicit: a function that can raise returns
  `Except String _` where the `String` names the exception; a falling-out
  exception at the Flask view boundary is rendered by the framework as
  HTTP 500, which the model keeps as the `Except.error` of `feishu_webhook`.
* `time.time()` is a parameter `now : Int`; each inbound request carries one
  timestamp (the source reads the clock more than once per request, but the
  properties verified here do not depend on sub-request clock drift).
* Outbound HTTP is an oracle `NetOutcome` per endpoint (`World`); side
  effects are accumulated in a `List Eff` trace.
* Python truthiness and dict semantics (`.get`, key membership, insertion
  before processing) are embedded explicitly; dict keys of the dedupe map
  are compared with `keyEq`, Python `==` restricted to the hashable JSON
  scalars that can actually be stored (the model does not replicate
  Python's `True == 1` coincidence, which no stored event id exercises).
-/

/-- JSON value, the result of `json.loads` and the shape of all payloads. -/
inductive JVal where
  | jnull : JVal
  | jbool : Bool → JVal
  | jnum : Int → JVal
  | jstr : String → JVal
  | jarr : List JVal → JVal
  | jobj : List (String × JVal) → JVal

/-- Python truthiness of a JSON value (`if x:`). -/
def JVal.truthy : JVal → Bool
  | JVal.jnull => false
  | JVal.jbool b => b
  | JVal.jnum n => n != 0
  | JVal.jstr s => s != ""
  | JVal.jarr xs => !xs.isEmpty
  | JVal.jobj fs => !fs.isEmpty

/-- Whether `hash(x)` succeeds in Python: containers are unhashable. -/
def JVal.hashable : JVal → Bool
  | JVal.jarr _ => false
  | JVal.jobj _ => false
  | _ => true

/-- Python `==` restricted to hashable JSON scalars (used for dict keys). -/
def keyEq : JVal → JVal → Bool
  | JVal.jnull, JVal.jnull => true
  | JVal.jbool a, JVal.jbool b => a == b
  | JVal.jnum a, JVal.jnum b => a == b
  | JVal.jstr a, JVal.jstr b => a == b
  | _, _ => false

/-- Dict field lookup; with duplicate keys the last occurrence wins, as in
Python's dict built by `json.loads`. -/
def dlookup (fs : List (String × JVal)) (k : String) : Option JVal :=
  fs.foldl (fun acc p => if p.1 == k then some p.2 else acc) none

/-- Python `v == "lit"` for a possibly absent JSON value (`dict.get`). -/
def isStrO (v : Option JVal) (s : String) : Bool :=
  match v with
  | some (JVal.jstr t) => t == s
  | _ => false

/-- Python truthiness of a `dict.get` result (absent key gives `None`). -/
def pyTruthyO : Option JVal → Bool
  | none => false
  | some v => v.truthy

/-- Dict lookup on a value that may not be a dict: `x.get(k)` raises
`AttributeError` unless `x` is a dict. -/
def jField (v : JVal) (k : String) : Option JVal :=
  match v with
  | JVal.jobj fs => dlookup fs k
  | _ => none

/-- `x[0]` on a JSON value, `none` when it is not a nonempty array. -/
def jHead : JVal → Option JVal
  | JVal.jarr (x :: _) => some x
  | _ => none

/-- The ASCII whitespace stripped by Python's `str.strip()`. -/
def isPyWs (c : Char) : Bool :=
  c == ' ' || c == '\t' || c == '\n' || c == '\r' ||
  c == Char.ofNat 11 || c == Char.ofNat 12

/-- Python `str.strip()` over its ASCII whitespace (the payload strings the
handler sees carry no exotic unicode spacing). -/
def pyStrip (s : String) : String :=
  String.mk (((s.data.dropWhile isPyWs).reverse.dropWhile isPyWs).reverse)

/-! ### `json.loads`, embedded as an executable parser over the JSON subset -/

/-- JSON whitespace (the four characters Python's `json` skips). -/
def isJsonWs (c : Char) : Bool :=
  c == ' ' || c == '\n' || c == '\t' || c == '\r'

/-- Drop leading JSON whitespace. -/
def skipWs (cs : List Char) : List Char := cs.dropWhile isJsonWs

/-- Decoding of a backslash escape inside a JSON string literal: the three
self-quoting characters, and the named control escapes. -/
def escChar (d : Char) : Option Char :=
  if d == '"' || d == '\\' || d == '/' then some d
  else if d == 'n' then some '\n'
  else if d == 't' then some '\t'
  else if d == 'r' then some '\r'
  else if d == 'b' then some (Char.ofNat 8)
  else if d == 'f' then some (Char.ofNat 12)
  else none

/-- Parse the body of a JSON string literal (after the opening quote),
returning the decoded string and the rest of the input. -/
def parseStrChars (acc : List Char) : List Char → Option (String × List Char)
  | [] => none
  | '"' :: rest => some (String.mk acc.reverse, rest)
  | '\\' :: rest =>
    match rest with
    | [] => none
    | d :: rest2 =>
      match escChar d with
      | some ch => parseStrChars (ch :: acc) rest2
      | none => none
  | c :: rest => parseStrChars (c :: acc) rest

/-- Match an expected literal tail such as `ull` of `null`. -/
def dropLit : List Char → List Char → Option (List Char)
  | [], cs => some cs
  | l :: ls, c :: cs => if c == l then dropLit ls cs else none
  | _ :: _, [] => none

/-- Digits to a natural number. -/
def digitsToNat (ds : List Char) : Nat :=
  ds.foldl (fun a c => a * 10 + (c.toNat - 48)) 0

/-- Parse a JSON integer literal (JSON forbids leading zeros). -/
def parseNum (cs : List Char) : Option (JVal × List Char) :=
  match cs with
  | '-' :: rest =>
    let ds := rest.takeWhile Char.isDigit
    if ds.isEmpty || (decide (1 < ds.length) && ds.head? == some '0') then none
    else some (JVal.jnum (-(digitsToNat ds : Int)), rest.dropWhile Char.isDigit)
  | _ =>
    let ds := cs.takeWhile Char.isDigit
    if ds.isEmpty || (decide (1 < ds.length) && ds.head? == some '0') then none
    else some (JVal.jnum (digitsToNat ds : Int), cs.dropWhile Char.isDigit)

mutual

/-- Parse one JSON value; `fuel` bounds the recursion depth. -/
def parseVal : Nat → List Char → Option (JVal × List Char)
  | 0, _ => none
  | fuel + 1, cs0 =>
    match skipWs cs0 with
    | [] => none
    | c :: cs =>
      if c == '"' then
        match parseStrChars [] cs with
        | some (s, rest) => some (JVal.jstr s, rest)
        | none => none
      else if c == '{' then
        match parseFields fuel true (skipWs cs) with
        | some (fs, rest) => some (JVal.jobj fs, rest)
        | none => none
      else if c == '[' then
        match parseItems fuel true (skipWs cs) with
        | some (xs, rest) => some (JVal.jarr xs, rest)
        | none => none
      else if c == 'n' then
        match dropLit ['u', 'l', 'l'] cs with
        | some rest => some (JVal.jnull, rest)
        | none => none
      else if c == 't' then
        match dropLit ['r', 'u', 'e'] cs with
        | some rest => some (JVal.jbool true, rest)
        | none => none
      else if c == 'f' then
        match dropLit ['a', 'l', 's', 'e'] cs with
        | some rest => some (JVal.jbool false, rest)
        | none => none
      else parseNum (c :: cs)

/-- Parse array items after `[` (whitespace already skipped); `first` tells
whether an immediate `]` is legal. -/
def parseItems : Nat → Bool → List Char → Option (List JVal × List Char)
  | 0, _, _ => none
  | fuel + 1, first, cs =>
    match cs with
    | ']' :: rest => if first then some ([], rest) else none
    | _ =>
      match parseVal fuel cs with
      | none => none
      | some (v, rest) =>
        match skipWs rest with
        | ',' :: rest2 =>
          match parseItems fuel false (skipWs rest2) with
          | some (xs, rest3) => some (v :: xs, rest3)
          | none => none
        | ']' :: rest2 => some ([v], rest2)
        | _ => none

/-- Parse object members after `{` (whitespace already skipped); `first`
tells whether an immediate `}` is legal. -/
def parseFields : Nat → Bool → List Char → Option (List (String × JVal) × List Char)
  | 0, _, _ => none
  | fuel + 1, first, cs =>
    match cs with
    | '}' :: rest => if first then some ([], rest) else none
    | '"' :: cs2 =>
      match parseStrChars [] cs2 with
      | none => none
      | some (k, rest) =>
        match skipWs rest with
        | ':' :: rest2 =>
          match parseVal fuel rest2 with
          | none => none
          | some (v, rest3) =>
            match skipWs rest3 with
            | ',' :: rest4 =>
              match parseFields fuel false (skipWs rest4) with
              | some (fs, rest5) => some ((k, v) :: fs, rest5)
              | none => none
            | '}' :: rest4 => some ([(k, v)], rest4)
            | _ => none
        | _ => none
    | _ => none

end

/-- `json.loads`: parse a complete JSON document, rejecting trailing junk. -/
def loads (s : String) : Option JVal :=
  match parseVal (2 * s.length + 2) s.data with
  | some (v, rest) => if (skipWs rest).isEmpty then some v else none
  | none => none

/-! ### Program state, network oracles, and the side-effect trace -/

/-- The module-level mutable globals of `app.py`: the dedupe dict
`PROCESSED_EVENTS` (insertion-ordered key/timestamp pairs) and the token
cache `_access_token` / `_token_expire`. -/
structure St where
  processed : List (JVal × Int)
  accessToken : Option JVal
  tokenExpire : Int

/-- Initial state: empty dedupe dict, `_access_token = None`,
`_token_expire = 0`. -/
def initSt : St := ⟨[], none, 0⟩

/-- `PROCESSED_TTL = 60 * 5`. -/
def PROCESSED_TTL : Int := 60 * 5

/-- Outcome of one outbound `requests.post`: the call raised, or returned a
status code and a raw body (to be fed to `resp.json()`). -/
inductive NetOutcome where
  | raise : NetOutcome
  | resp : Int → String → NetOutcome

/-- Network oracles for the three outbound endpoints one request can hit. -/
structure World where
  qwen : NetOutcome
  tokenNet : NetOutcome
  sendNet : NetOutcome

/-- Observable side effects of handling a request: an LLM completion call,
a dispatch (`send_message`) invocation, a token-endpoint fetch, and the
outbound message POST. -/
inductive Eff where
  | qwenCall : String → Eff
  | sendCall : JVal → JVal → Eff
  | tokenFetch : Eff
  | msgPost : JVal → JVal → Eff

/-- Is this effect a completion call? -/
def isQwenCall : Eff → Bool
  | Eff.qwenCall _ => true
  | _ => false

/-- Is this effect a dispatch call? -/
def isSendCall : Eff → Bool
  | Eff.sendCall _ _ => true
  | _ => false

/-- Number of completion calls in a trace. -/
def qwenCount (l : List Eff) : Nat := (l.filter isQwenCall).length

/-- Number of dispatch calls in a trace. -/
def sendCount (l : List Eff) : Nat := (l.filter isSendCall).length

/-- The TTL sweep (`app.py` lines 130-132): drop every entry whose age
exceeds `PROCESSED_TTL`. -/
def sweep (m : List (JVal × Int)) (now : Int) : List (JVal × Int) :=
  m.filter (fun p => decide (now - p.2 ≤ PROCESSED_TTL))

/-- `event_id in PROCESSED_EVENTS` (for hashable keys). -/
def containsKey (m : List (JVal × Int)) (v : JVal) : Bool :=
  m.any (fun p => keyEq p.1 v)

/-! ### CredentialCache: `get_tenant_access_token` (app.py lines 30-50) -/

/-- The cache-hit test of line 34: `_access_token and time.time() < _token_expire`. -/
def tokenCacheFresh (st : St) (now : Int) : Bool :=
  pyTruthyO st.accessToken && decide (now < st.tokenExpire)

/-- `time.time() + data.get("expire", 3600) - 60` needs a number; Python adds
booleans as 0/1 and raises `TypeError` on other JSON values. -/
def expireVal : Option JVal → Except String Int
  | none => Except.ok 3600
  | some (JVal.jnum n) => Except.ok n
  | some (JVal.jbool b) => Except.ok (if b then 1 else 0)
  | some _ => Except.error "TypeError"

/-- Python substring test `pat in s` for a fixed nonempty pattern. -/
def strContains (s pat : String) : Bool := (s.splitOn pat).length != 1

/-- The fetch half of `get_tenant_access_token` (lines 37-50), entered on a
cache miss.  `resp.json()` is outside any `try`, so an unparseable body
raises; `"tenant_access_token" not in data` is only evaluated when the
status is 200 (the `or` short-circuits) and follows Python membership
semantics on each JSON shape; line 47 assigns `_access_token` before
line 48 computes the expiry, so a `TypeError` there leaves a half-updated
cache. -/
def tokenFetchStep (st : St) (now : Int) (net : NetOutcome) :
    Except String (Option JVal) × St :=
  match net with
  | NetOutcome.raise => (Except.error "RequestException", st)
  | NetOutcome.resp status body =>
    match loads body with
    | none => (Except.error "JSONDecodeError", st)
    | some data =>
      if status != 200 then (Except.ok none, st)
      else
        match data with
        | JVal.jobj ds =>
          match dlookup ds "tenant_access_token" with
          | none => (Except.ok none, st)
          | some tokv =>
            match expireVal (dlookup ds "expire") with
            | Except.error e => (Except.error e, { st with accessToken := some tokv })
            | Except.ok n =>
              (Except.ok (some tokv),
               { st with accessToken := some tokv, tokenExpire := now + n - 60 })
        | JVal.jarr xs =>
          if xs.any (fun v => keyEq v (JVal.jstr "tenant_access_token")) then
            (Except.error "TypeError", st)
          else (Except.ok none, st)
        | JVal.jstr s =>
          if strContains s "tenant_access_token" then (Except.error "TypeError", st)
          else (Except.ok none, st)
        | _ => (Except.error "TypeError", st)

/-- `get_tenant_access_token` (lines 30-50): cached token on a fresh hit,
otherwise one fetch against the token endpoint. -/
def get_tenant_access_token (st : St) (now : Int) (net : NetOutcome) :
    Except String (Option JVal) × St × List Eff :=
  if tokenCacheFresh st now then (Except.ok st.accessToken, st, [])
  else ((tokenFetchStep st now net).1, (tokenFetchStep st now net).2, [Eff.tokenFetch])

/-! ### CompletionClient: `call_qwen` (app.py lines 53-83) -/

/-- Fallback string of the `else` branch (non-200 status), line 80. -/
def qwenErrMsg : String := "通义千问调用失败，请稍后再试～"

/-- Fallback string of the `except` branch, line 83. -/
def qwenExnMsg : String := "通义千问接口异常，请稍后再试～"

/-- `data["output"]["choices"][0]["message"]["content"]` (line 76); `none`
when any subscript would raise. -/
def qwenExtract (data : JVal) : Option JVal :=
  ((((jField data "output").bind (fun o => jField o "choices")).bind
      jHead).bind (fun m => jField m "message")).bind
    (fun m => jField m "content")

/-- The `try` block of `call_qwen` (lines 73-80): POST, `resp.json()`,
status test, content extraction.  Every raising operation becomes an
`Except.error`. -/
def call_qwen_try (_prompt : String) (net : NetOutcome) : Except String JVal :=
  match net with
  | NetOutcome.raise => Except.error "RequestException"
  | NetOutcome.resp status body =>
    match loads body with
    | none => Except.error "JSONDecodeError"
    | some data =>
      if status == 200 then
        match qwenExtract data with
        | some c => Except.ok c
        | none => Except.error "KeyError"
      else Except.ok (JVal.jstr qwenErrMsg)

/-- `call_qwen` (lines 53-83): the `except Exception` handler converts any
raised exception into the fixed fallback string. -/
def call_qwen (prompt : String) (net : NetOutcome) : JVal :=
  match call_qwen_try prompt net with
  | Except.ok v => v
  | Except.error _ => JVal.jstr qwenExnMsg

/-! ### ReplyDispatcher: `send_message` (app.py lines 86-110) -/

/-- `send_message` (lines 86-110): fetch a token (abandoning dispatch when
it is falsy), then POST the message; the POST of line 105 is outside any
`try`, so a network failure there propagates, while `resp.json()` failures
are swallowed by lines 106-109. -/
def send_message (chat text : JVal) (st : St) (now : Int) (w : World) :
    Except String Unit × St × List Eff :=
  let g := get_tenant_access_token st now w.tokenNet
  let effs0 := Eff.sendCall chat text :: g.2.2
  match g.1 with
  | Except.error e => (Except.error e, g.2.1, effs0)
  | Except.ok tok =>
    if pyTruthyO tok then
      match w.sendNet with
      | NetOutcome.raise =>
        (Except.error "RequestException", g.2.1, effs0 ++ [Eff.msgPost chat text])
      | NetOutcome.resp _ _ => (Except.ok (), g.2.1, effs0 ++ [Eff.msgPost chat text])
    else (Except.ok (), g.2.1, effs0)

/-! ### WebhookHandler: `handle_event` and `feishu_webhook` (app.py 113-201) -/

/-- Lines 144-165: the `im.message.receive_v1` branch.  Non-dict shapes met
by a `.get` raise `AttributeError`; `json.loads(content_str)` failures
(including a non-string `content`) are caught by lines 151-155 and end the
handler normally; `.strip()` on a non-string `text` raises. -/
def processEvent (event_type : Option JVal) (event : JVal) (st : St) (now : Int)
    (w : World) : Except String Unit × St × List Eff :=
  if isStrO event_type "im.message.receive_v1" then
    match event with
    | JVal.jobj _ =>
      match (jField event "message").getD (JVal.jobj []) with
      | JVal.jobj ms =>
        match (dlookup ms "content").getD (JVal.jstr "\x7b\x7d") with
        | JVal.jstr cs =>
          match loads cs with
          | none => (Except.ok (), st, [])
          | some cobj =>
            match cobj with
            | JVal.jobj cfs =>
              match (dlookup cfs "text").getD (JVal.jstr "") with
              | JVal.jstr t =>
                let user_text := pyStrip t
                if pyTruthyO (dlookup ms "chat_id") &&
                    isStrO (dlookup ms "message_type") "text" &&
                    !(user_text == "") then
                  let res := send_message ((dlookup ms "chat_id").getD JVal.jnull)
                    (call_qwen user_text w.qwen) st now w
                  (res.1, res.2.1, Eff.qwenCall user_text :: res.2.2)
                else (Except.ok (), st, [])
              | _ => (Except.error "AttributeError", st, [])
            | _ => (Except.error "AttributeError", st, [])
        | _ => (Except.ok (), st, [])
      | _ => (Except.error "AttributeError", st, [])
    | _ => (Except.error "AttributeError", st, [])
  else (Except.ok (), st, [])

/-- Lines 134-142: the dedupe decision, taken on the already swept map.
`event_id in PROCESSED_EVENTS` hashes the key first, so an unhashable
truthy id raises; a fresh id is recorded *before* processing. -/
def dedupStep (event_id : Option JVal) (event_type : Option JVal) (event : JVal)
    (st : St) (now : Int) (w : World) : Except String Unit × St × List Eff :=
  match event_id with
  | some v =>
    if v.truthy then
      if v.hashable then
        if containsKey st.processed v then (Except.ok (), st, [])
        else processEvent event_type event
          { st with processed := st.processed ++ [(v, now)] } now w
      else (Except.error "TypeError", st, [])
    else processEvent event_type event st now w
  | none => processEvent event_type event st now w

/-- `handle_event` (lines 113-165): schema gate, header/event extraction
(raising when a present `header` is not a dict), TTL sweep, dedupe, then
the message branch. -/
def handle_event (ed : JVal) (st : St) (now : Int) (w : World) :
    Except String Unit × St × List Eff :=
  match ed with
  | JVal.jobj fs =>
    if !isStrO (dlookup fs "schema") "2.0" then (Except.ok (), st, [])
    else
      match (dlookup fs "header").getD (JVal.jobj []) with
      | JVal.jobj hs =>
        dedupStep (dlookup hs "event_id") (dlookup hs "event_type")
          ((dlookup fs "event").getD (JVal.jobj []))
          { st with processed := sweep st.processed now } now w
      | _ => (Except.error "AttributeError", st, [])
  | _ => (Except.error "AttributeError", st, [])

/-- Success acknowledgement body of line 201. -/
def okBody : JVal := JVal.jobj [("code", JVal.jnum 0), ("msg", JVal.jstr "ok")]

/-- Success acknowledgement body of line 199 (event processing raised). -/
def evtErrBody (e : String) : JVal :=
  JVal.jobj [("code", JVal.jnum 0), ("msg", JVal.jstr "event error"),
    ("detail", JVal.jstr e)]

/-- 400 response body of line 185 (the `detail` carries the exception text,
kept abstract here). -/
def badJsonBody : JVal :=
  JVal.jobj [("code", JVal.jnum 1), ("msg", JVal.jstr "bad json"),
    ("detail", JVal.jstr "json parse error")]

/-- The `try`/`except` of lines 194-199: any exception from `handle_event`
still yields a 200 JSON acknowledgement. -/
def ackWrap (r : Except String Unit × St × List Eff) :
    Except String (Nat × JVal) × St × List Eff :=
  match r.1 with
  | Except.ok _ => (Except.ok (200, okBody), r.2.1, r.2.2)
  | Except.error e => (Except.ok (200, evtErrBody e), r.2.1, r.2.2)

/-- `feishu_webhook` (lines 170-201).  The result is the HTTP response
`(status, json body)`; an `Except.error` is an exception escaping the view
function, which Flask renders as HTTP 500.  `data.get("type")` at line 188
is outside both `try` blocks, so a parsed non-dict body raises there. -/
def feishu_webhook (raw : String) (st : St) (now : Int) (w : World) :
    Except String (Nat × JVal) × St × List Eff :=
  match loads raw with
  | none => (Except.ok (400, badJsonBody), st, [])
  | some data =>
    match data with
    | JVal.jobj fs =>
      if isStrO (dlookup fs "type") "url_verification" then
        (Except.ok (200, JVal.jobj
          [("challenge", (dlookup fs "challenge").getD JVal.jnull)]), st, [])
      else ackWrap (handle_event (JVal.jobj fs) st now w)
    | _ => (Except.error "AttributeError", st, [])

/-- Sequential handling of repeated deliveries of one raw body: threads the
global state, concatenates the effect traces, collects the responses. -/
def webhookSeq (raw : String) : List (Int × World) → St →
    List (Except String (Nat × JVal)) × St × List Eff
  | [], st => ([], st, [])
  | r :: rs, st =>
    let a := feishu_webhook raw st r.1 r.2
    let b := webhookSeq raw rs a.2.1
    (a.1 :: b.1, b.2.1, a.2.2 ++ b.2.2)

/-- Sequential handling of deliveries whose raw bodies may differ: each
element carries its body, its arrival time, and its network world. -/
def webhookSeqM : List (String × Int × World) → St →
    List (Except String (Nat × JVal)) × St × List Eff
  | [], st => ([], st, [])
  | r :: rs, st =>
    let a := feishu_webhook r.1 st r.2.1 r.2.2
    let b := webhookSeqM rs a.2.1
    (a.1 :: b.1, b.2.1, a.2.2 ++ b.2.2)

/-- An event-callback envelope carrying the event id `e`: it parses to a
JSON object, is not a url_verification envelope, has schema 2.0, a dict
header, and `e` as its event_id. -/
def EnvSameId (raw : String) (e : String) : Prop :=
  ∃ fs hs, loads raw = some (JVal.jobj fs) ∧
    isStrO (dlookup fs "type") "url_verification" = false ∧
    isStrO (dlookup fs "schema") "2.0" = true ∧
    dlookup fs "header" = some (JVal.jobj hs) ∧
    dlookup hs "event_id" = some (JVal.jstr e)

/-! ### Concrete inputs shared by witnesses and counterexamples -/

/-- A network world where every outbound call raises. -/
def w0 : World := ⟨NetOutcome.raise, NetOutcome.raise, NetOutcome.raise⟩

/-- A Qwen response body with the structured content field. -/
def qwenBodyOk : String :=
  "\x7b\"output\":\x7b\"choices\":[\x7b\"message\":\x7b\"content\":\"re\"\x7d\x7d]\x7d\x7d"

/-- The parse of `qwenBodyOk`. -/
def qwenDataOk : JVal :=
  JVal.jobj [("output", JVal.jobj [("choices", JVal.jarr
    [JVal.jobj [("message", JVal.jobj [("content", JVal.jstr "re")])]])])]

/-- A Qwen response body whose content field is the number 5. -/
def qwenBodyNum : String :=
  "\x7b\"output\":\x7b\"choices\":[\x7b\"message\":\x7b\"content\":5\x7d\x7d]\x7d\x7d"

/-- A Qwen response body with only a flat text field. -/
def qwenBodyFlat : String := "\x7b\"text\":\"hello\"\x7d"

/-! ### Concrete envelopes for the dedupe witnesses -/

/-- A full message envelope: schema 2.0, event_id E1, chat C1, text "hi". -/
def rawMsg : String :=
  "\x7b\"schema\":\"2.0\",\"header\":\x7b\"event_type\":\"im.message.receive_v1\",\"event_id\":\"E1\"\x7d,\"event\":\x7b\"message\":\x7b\"chat_id\":\"C1\",\"message_type\":\"text\",\"content\":\"\x7b\\\"text\\\":\\\"hi\\\"\x7d\"\x7d\x7d\x7d"

/-- The same envelope without an event_id. -/
def rawNoId : String :=
  "\x7b\"schema\":\"2.0\",\"header\":\x7b\"event_type\":\"im.message.receive_v1\"\x7d,\"event\":\x7b\"message\":\x7b\"chat_id\":\"C1\",\"message_type\":\"text\",\"content\":\"\x7b\\\"text\\\":\\\"hi\\\"\x7d\"\x7d\x7d\x7d"

/-- The same envelope without a chat_id. -/
def rawNoChat : String :=
  "\x7b\"schema\":\"2.0\",\"header\":\x7b\"event_type\":\"im.message.receive_v1\",\"event_id\":\"E1\"\x7d,\"event\":\x7b\"message\":\x7b\"message_type\":\"text\",\"content\":\"\x7b\\\"text\\\":\\\"hi\\\"\x7d\"\x7d\x7d\x7d"

/-- The message dict of `rawMsg`. -/
def msC : List (String × JVal) :=
  [("chat_id", JVal.jstr "C1"), ("message_type", JVal.jstr "text"),
   ("content", JVal.jstr "\x7b\"text\":\"hi\"\x7d")]

/-- The event dict of `rawMsg`. -/
def esC : List (String × JVal) := [("message", JVal.jobj msC)]

/-- The header dict of `rawMsg`. -/
def hsC : List (String × JVal) :=
  [("event_type", JVal.jstr "im.message.receive_v1"), ("event_id", JVal.jstr "E1")]

/-- The envelope dict of `rawMsg`. -/
def fsC : List (String × JVal) :=
  [("schema", JVal.jstr "2.0"), ("header", JVal.jobj hsC), ("event", JVal.jobj esC)]

/-- The parsed content dict of all three envelopes. -/
def cfsC : List (String × JVal) := [("text", JVal.jstr "hi")]

/-- The header dict of `rawNoId`. -/
def hsC9 : List (String × JVal) :=
  [("event_type", JVal.jstr "im.message.receive_v1")]

/-- The envelope dict of `rawNoId`. -/
def fsC9 : List (String × JVal) :=
  [("schema", JVal.jstr "2.0"), ("header", JVal.jobj hsC9), ("event", JVal.jobj esC)]

/-- The message dict of `rawNoChat`. -/
def msC10 : List (String × JVal) :=
  [("message_type", JVal.jstr "text"),
   ("content", JVal.jstr "\x7b\"text\":\"hi\"\x7d")]

/-- The event dict of `rawNoChat`. -/
def esC10 : List (String × JVal) := [("message", JVal.jobj msC10)]

/-- The envelope dict of `rawNoChat`. -/
def fsC10 : List (String × JVal) :=
  [("schema", JVal.jstr "2.0"), ("header", JVal.jobj hsC), ("event", JVal.jobj esC10)]

/-- A second envelope sharing event_id E1 but with another chat and text. -/
def rawMsgB : String :=
  "\x7b\"schema\":\"2.0\",\"header\":\x7b\"event_type\":\"im.message.receive_v1\",\"event_id\":\"E1\"\x7d,\"event\":\x7b\"message\":\x7b\"chat_id\":\"C2\",\"message_type\":\"text\",\"content\":\"\x7b\\\"text\\\":\\\"yo\\\"\x7d\"\x7d\x7d\x7d"

/-- The message dict of `rawMsgB`. -/
def msB : List (String × JVal) :=
  [("chat_id", JVal.jstr "C2"), ("message_type", JVal.jstr "text"),
   ("content", JVal.jstr "\x7b\"text\":\"yo\"\x7d")]

/-- The event dict of `rawMsgB`. -/
def esB : List (String × JVal) := [("message", JVal.jobj msB)]

/-- The envelope dict of `rawMsgB`. -/
def fsB : List (String × JVal) :=
  [("schema", JVal.jstr "2.0"), ("header", JVal.jobj hsC), ("event", JVal.jobj esB)]

/-! ### Basic lemmas about traces and the dedupe map -/

theorem qwenCount_append (a b : List Eff) :
    qwenCount (a ++ b) = qwenCount a + qwenCount b := by
  simp [qwenCount, List.filter_append]

theorem sendCount_append (a b : List Eff) :
    sendCount (a ++ b) = sendCount a + sendCount b := by
  simp [sendCount, List.filter_append]

theorem qwenCount_cons_qwen (p : String) (l : List Eff) :
    qwenCount (Eff.qwenCall p :: l) = qwenCount l + 1 := by
  simp [qwenCount, List.filter_cons, isQwenCall]

theorem sendCount_cons_qwen (p : String) (l : List Eff) :
    sendCount (Eff.qwenCall p :: l) = sendCount l := by
  simp [sendCount, List.filter_cons, isSendCall]

theorem mem_sweep {m : List (JVal × Int)} {p : JVal × Int} {now : Int}
    (h : p ∈ m) (h2 : now - p.2 ≤ PROCESSED_TTL) : p ∈ sweep m now := by
  simp [sweep, List.mem_filter, h]
  omega

theorem sweep_mem_le {m : List (JVal × Int)} {p : JVal × Int} {now : Int}
    (h : p ∈ sweep m now) : now - p.2 ≤ PROCESSED_TTL := by
  simp [sweep, List.mem_filter] at h
  omega

theorem containsKey_of_mem {m : List (JVal × Int)} {e : String} {t : Int}
    (h : (JVal.jstr e, t) ∈ m) : containsKey m (JVal.jstr e) = true := by
  refine List.any_eq_true.mpr ⟨(JVal.jstr e, t), h, ?_⟩
  simp [keyEq]

theorem containsKey_sweep_false (now : Int) {m : List (JVal × Int)} {v : JVal}
    (h : containsKey m v = false) : containsKey (sweep m now) v = false := by
  simp only [containsKey, List.any_eq_false] at h ⊢
  intro p hp
  exact h p ((List.mem_filter.mp hp).1)

theorem containsKey_sweep_false_of_stale {m : List (JVal × Int)} {v : JVal} {now : Int}
    (h : ∀ p ∈ m, keyEq p.1 v = true → now - p.2 > PROCESSED_TTL) :
    containsKey (sweep m now) v = false := by
  simp only [containsKey, List.any_eq_false]
  intro p hp
  rcases List.mem_filter.mp hp with ⟨hm, hf⟩
  intro hk
  have := h p hm hk
  simp at hf
  omega

/-! ### Shape lemmas for the token cache and the dispatcher -/

theorem tokenFetchStep_processed (st : St) (now : Int) (net : NetOutcome) :
    (tokenFetchStep st now net).2.processed = st.processed := by
  rcases net with _ | ⟨status, body⟩
  · rfl
  · simp only [tokenFetchStep]
    (repeat' split) <;> rfl

theorem get_token_processed (st : St) (now : Int) (net : NetOutcome) :
    (get_tenant_access_token st now net).2.1.processed = st.processed := by
  unfold get_tenant_access_token
  split
  · rfl
  · simpa using tokenFetchStep_processed st now net

theorem get_token_effs (st : St) (now : Int) (net : NetOutcome) :
    (get_tenant_access_token st now net).2.2 = [] ∨
    (get_tenant_access_token st now net).2.2 = [Eff.tokenFetch] := by
  unfold get_tenant_access_token
  split
  · exact Or.inl rfl
  · exact Or.inr rfl

theorem send_message_processed (c t : JVal) (st : St) (now : Int) (w : World) :
    (send_message c t st now w).2.1.processed = st.processed := by
  have hp := get_token_processed st now w.tokenNet
  simp only [send_message]
  rcases hg : (get_tenant_access_token st now w.tokenNet).1 with e | tok
  · simp only [hg]; exact hp
  · simp only [hg]
    by_cases ht : pyTruthyO tok = true
    · rcases hs : w.sendNet with _ | ⟨ss, sb⟩ <;> simp only [hs, ht, if_true] <;> exact hp
    · simp only [ht]
      simp only [Bool.false_eq_true, if_false]
      exact hp

theorem send_message_qwenCount (c t : JVal) (st : St) (now : Int) (w : World) :
    qwenCount (send_message c t st now w).2.2 = 0 := by
  simp only [send_message]
  rcases get_token_effs st now w.tokenNet with h | h <;>
  · rcases hg : (get_tenant_access_token st now w.tokenNet).1 with e | tok
    · simp [hg, h, qwenCount, List.filter_cons, isQwenCall]
    · by_cases ht : pyTruthyO tok = true <;>
        rcases hs : w.sendNet with _ | ⟨ss, sb⟩ <;>
        simp [hg, hs, ht, h, qwenCount, List.filter_cons, List.filter_append, isQwenCall]

theorem send_message_sendCount (c t : JVal) (st : St) (now : Int) (w : World) :
    sendCount (send_message c t st now w).2.2 = 1 := by
  simp only [send_message]
  rcases get_token_effs st now w.tokenNet with h | h <;>
  · rcases hg : (get_tenant_access_token st now w.tokenNet).1 with e | tok
    · simp [hg, h, sendCount, List.filter_cons, isSendCall]
    · by_cases ht : pyTruthyO tok = true <;>
        rcases hs : w.sendNet with _ | ⟨ss, sb⟩ <;>
        simp [hg, hs, ht, h, sendCount, List.filter_cons, List.filter_append, isSendCall]

/-! ### Unfolding lemmas for the webhook pipeline -/

theorem webhook_event_branch {raw : String} {fs : List (String × JVal)}
    (st : St) (now : Int) (w : World)
    (h1 : loads raw = some (JVal.jobj fs))
    (h2 : isStrO (dlookup fs "type") "url_verification" = false) :
    feishu_webhook raw st now w = ackWrap (handle_event (JVal.jobj fs) st now w) := by
  simp only [feishu_webhook, h1, h2, Bool.false_eq_true, if_false]

theorem handle_event_unfold {fs hs : List (String × JVal)} (st : St) (now : Int)
    (w : World)
    (h3 : isStrO (dlookup fs "schema") "2.0" = true)
    (h4 : dlookup fs "header" = some (JVal.jobj hs)) :
    handle_event (JVal.jobj fs) st now w =
      dedupStep (dlookup hs "event_id") (dlookup hs "event_type")
        ((dlookup fs "event").getD (JVal.jobj []))
        { st with processed := sweep st.processed now } now w := by
  simp only [handle_event, h3, h4, Bool.not_true, Bool.false_eq_true, if_false,
    Option.getD_some]

theorem dedup_fresh {e : String} (et : Option JVal) (ev : JVal) (st : St) (now : Int)
    (w : World)
    (h7 : (e == "") = false)
    (hc : containsKey st.processed (JVal.jstr e) = false) :
    dedupStep (some (JVal.jstr e)) et ev st now w =
      processEvent et ev { st with processed := st.processed ++ [(JVal.jstr e, now)] }
        now w := by
  simp only [dedupStep, JVal.truthy, JVal.hashable, bne, h7, Bool.not_false, if_true,
    hc, Bool.false_eq_true, if_false]

theorem dedup_dup {e : String} (et : Option JVal) (ev : JVal) (st : St) (now : Int)
    (w : World)
    (h7 : (e == "") = false)
    (hc : containsKey st.processed (JVal.jstr e) = true) :
    dedupStep (some (JVal.jstr e)) et ev st now w = (Except.ok (), st, []) := by
  simp only [dedupStep, JVal.truthy, JVal.hashable, bne, h7, Bool.not_false, if_true, hc]

theorem processEvent_msg {es ms cfs : List (String × JVal)} {cv : JVal} {cs ts : String}
    (st : St) (now : Int) (w : World)
    (h9 : dlookup es "message" = some (JVal.jobj ms))
    (h10 : dlookup ms "chat_id" = some cv)
    (h11 : cv.truthy = true)
    (h12 : dlookup ms "message_type" = some (JVal.jstr "text"))
    (h13 : dlookup ms "content" = some (JVal.jstr cs))
    (h14 : loads cs = some (JVal.jobj cfs))
    (h15 : dlookup cfs "text" = some (JVal.jstr ts))
    (h16 : (pyStrip ts == "") = false) :
    processEvent (some (JVal.jstr "im.message.receive_v1")) (JVal.jobj es) st now w =
      ((send_message cv (call_qwen (pyStrip ts) w.qwen) st now w).1,
       (send_message cv (call_qwen (pyStrip ts) w.qwen) st now w).2.1,
       Eff.qwenCall (pyStrip ts) :: (send_message cv (call_qwen (pyStrip ts) w.qwen) st now w).2.2) := by
  simp only [processEvent, isStrO, jField, h9, h10, h11, h12, h13, h14, h15, h16,
    pyTruthyO, Option.getD_some, beq_self_eq_true, Bool.not_false, Bool.and_self,
    if_true, Bool.true_and, Bool.and_true]

theorem processEvent_nochat {es ms cfs : List (String × JVal)} {cs ts : String}
    (st : St) (now : Int) (w : World)
    (h9 : dlookup es "message" = some (JVal.jobj ms))
    (h10 : pyTruthyO (dlookup ms "chat_id") = false)
    (h13 : dlookup ms "content" = some (JVal.jstr cs))
    (h14 : loads cs = some (JVal.jobj cfs))
    (h15 : dlookup cfs "text" = some (JVal.jstr ts)) :
    processEvent (some (JVal.jstr "im.message.receive_v1")) (JVal.jobj es) st now w =
      (Except.ok (), st, []) := by
  simp only [processEvent, isStrO, jField, h9, h10, h13, h14, h15,
    Option.getD_some, beq_self_eq_true, if_true, Bool.false_and, Bool.false_eq_true,
    if_false]

/-! ### Per-delivery composite lemmas -/

theorem webhook_msg_fresh
    {raw : String} {fs hs es ms cfs : List (String × JVal)} {e : String} {cv : JVal}
    {cs ts : String} (st : St) (now : Int) (w : World)
    (h1 : loads raw = some (JVal.jobj fs))
    (h2 : isStrO (dlookup fs "type") "url_verification" = false)
    (h3 : isStrO (dlookup fs "schema") "2.0" = true)
    (h4 : dlookup fs "header" = some (JVal.jobj hs))
    (h5 : dlookup hs "event_type" = some (JVal.jstr "im.message.receive_v1"))
    (h6 : dlookup hs "event_id" = some (JVal.jstr e))
    (h7 : (e == "") = false)
    (h8 : dlookup fs "event" = some (JVal.jobj es))
    (h9 : dlookup es "message" = some (JVal.jobj ms))
    (h10 : dlookup ms "chat_id" = some cv)
    (h11 : cv.truthy = true)
    (h12 : dlookup ms "message_type" = some (JVal.jstr "text"))
    (h13 : dlookup ms "content" = some (JVal.jstr cs))
    (h14 : loads cs = some (JVal.jobj cfs))
    (h15 : dlookup cfs "text" = some (JVal.jstr ts))
    (h16 : (pyStrip ts == "") = false)
    (hsw : containsKey (sweep st.processed now) (JVal.jstr e) = false) :
    ∃ body st1 effs,
      feishu_webhook raw st now w = (Except.ok (200, body), st1, effs) ∧
      st1.processed = sweep st.processed now ++ [(JVal.jstr e, now)] ∧
      qwenCount effs = 1 ∧ sendCount effs = 1 := by
  obtain ⟨sp, sa, se⟩ := st
  rw [webhook_event_branch _ _ _ h1 h2, handle_event_unfold _ _ _ h3 h4, h5, h6, h8]
  simp only [Option.getD_some]
  rw [dedup_fresh _ _ _ _ _ h7 (by simpa using hsw)]
  rw [processEvent_msg _ _ _ h9 h10 h11 h12 h13 h14 h15 h16]
  have hsp := send_message_processed cv (call_qwen (pyStrip ts) w.qwen)
    ⟨sweep sp now ++ [(JVal.jstr e, now)], sa, se⟩ now w
  have hq := send_message_qwenCount cv (call_qwen (pyStrip ts) w.qwen)
    ⟨sweep sp now ++ [(JVal.jstr e, now)], sa, se⟩ now w
  have hsc := send_message_sendCount cv (call_qwen (pyStrip ts) w.qwen)
    ⟨sweep sp now ++ [(JVal.jstr e, now)], sa, se⟩ now w
  generalize hS : send_message cv (call_qwen (pyStrip ts) w.qwen)
      ⟨sweep sp now ++ [(JVal.jstr e, now)], sa, se⟩ now w = S at hsp hq hsc ⊢
  obtain ⟨r, st1, efs⟩ := S
  rcases r with er | u
  · exact ⟨evtErrBody er, st1, Eff.qwenCall (pyStrip ts) :: efs,
      by simp only [ackWrap], by simpa using hsp,
      by simp [qwenCount_cons_qwen, hq], by simp [sendCount_cons_qwen, hsc]⟩
  · exact ⟨okBody, st1, Eff.qwenCall (pyStrip ts) :: efs,
      by simp only [ackWrap], by simpa using hsp,
      by simp [qwenCount_cons_qwen, hq], by simp [sendCount_cons_qwen, hsc]⟩

theorem webhook_dup
    {raw : String} {fs hs : List (String × JVal)} {e : String}
    (st : St) (now : Int) (w : World)
    (h1 : loads raw = some (JVal.jobj fs))
    (h2 : isStrO (dlookup fs "type") "url_verification" = false)
    (h3 : isStrO (dlookup fs "schema") "2.0" = true)
    (h4 : dlookup fs "header" = some (JVal.jobj hs))
    (h6 : dlookup hs "event_id" = some (JVal.jstr e))
    (h7 : (e == "") = false)
    (hc : containsKey (sweep st.processed now) (JVal.jstr e) = true) :
    feishu_webhook raw st now w =
      (Except.ok (200, okBody), { st with processed := sweep st.processed now }, []) := by
  obtain ⟨sp, sa, se⟩ := st
  rw [webhook_event_branch _ _ _ h1 h2, handle_event_unfold _ _ _ h3 h4, h6]
  rw [dedup_dup _ _ _ _ _ h7 (by simpa using hc)]
  rfl

theorem webhook_msg_noid
    {raw : String} {fs hs es ms cfs : List (String × JVal)} {cv : JVal}
    {cs ts : String} (st : St) (now : Int) (w : World)
    (h1 : loads raw = some (JVal.jobj fs))
    (h2 : isStrO (dlookup fs "type") "url_verification" = false)
    (h3 : isStrO (dlookup fs "schema") "2.0" = true)
    (h4 : dlookup fs "header" = some (JVal.jobj hs))
    (h5 : dlookup hs "event_type" = some (JVal.jstr "im.message.receive_v1"))
    (h6 : pyTruthyO (dlookup hs "event_id") = false)
    (h8 : dlookup fs "event" = some (JVal.jobj es))
    (h9 : dlookup es "message" = some (JVal.jobj ms))
    (h10 : dlookup ms "chat_id" = some cv)
    (h11 : cv.truthy = true)
    (h12 : dlookup ms "message_type" = some (JVal.jstr "text"))
    (h13 : dlookup ms "content" = some (JVal.jstr cs))
    (h14 : loads cs = some (JVal.jobj cfs))
    (h15 : dlookup cfs "text" = some (JVal.jstr ts))
    (h16 : (pyStrip ts == "") = false) :
    ∃ body st1 effs,
      feishu_webhook raw st now w = (Except.ok (200, body), st1, effs) ∧
      st1.processed = sweep st.processed now ∧
      qwenCount effs = 1 ∧ sendCount effs = 1 := by
  obtain ⟨sp, sa, se⟩ := st
  rw [webhook_event_branch _ _ _ h1 h2, handle_event_unfold _ _ _ h3 h4, h5, h8]
  simp only [Option.getD_some]
  have hstep : dedupStep (dlookup hs "event_id")
      (some (JVal.jstr "im.message.receive_v1")) (JVal.jobj es)
      ⟨sweep sp now, sa, se⟩ now w =
      processEvent (some (JVal.jstr "im.message.receive_v1")) (JVal.jobj es)
        ⟨sweep sp now, sa, se⟩ now w := by
    rcases hid : dlookup hs "event_id" with _ | v
    · simp only [dedupStep]
    · rw [hid] at h6
      simp only [pyTruthyO] at h6
      simp only [dedupStep, h6, Bool.false_eq_true, if_false]
  rw [hstep, processEvent_msg _ _ _ h9 h10 h11 h12 h13 h14 h15 h16]
  have hsp := send_message_processed cv (call_qwen (pyStrip ts) w.qwen)
    ⟨sweep sp now, sa, se⟩ now w
  have hq := send_message_qwenCount cv (call_qwen (pyStrip ts) w.qwen)
    ⟨sweep sp now, sa, se⟩ now w
  have hsc := send_message_sendCount cv (call_qwen (pyStrip ts) w.qwen)
    ⟨sweep sp now, sa, se⟩ now w
  generalize hS : send_message cv (call_qwen (pyStrip ts) w.qwen)
      ⟨sweep sp now, sa, se⟩ now w = S at hsp hq hsc ⊢
  obtain ⟨r, st1, efs⟩ := S
  rcases r with er | u
  · exact ⟨evtErrBody er, st1, Eff.qwenCall (pyStrip ts) :: efs,
      by simp only [ackWrap], by simpa using hsp,
      by simp [qwenCount_cons_qwen, hq], by simp [sendCount_cons_qwen, hsc]⟩
  · exact ⟨okBody, st1, Eff.qwenCall (pyStrip ts) :: efs,
      by simp only [ackWrap], by simpa using hsp,
      by simp [qwenCount_cons_qwen, hq], by simp [sendCount_cons_qwen, hsc]⟩

/-! ### Sequencing lemmas for repeated deliveries -/

theorem dup_deliveries {e : String} {t1 : Int}
    (h7 : (e == "") = false) :
    ∀ (rest : List (String × Int × World)) (st : St),
      (JVal.jstr e, t1) ∈ st.processed →
      (∀ r ∈ rest, r.2.1 - t1 ≤ PROCESSED_TTL ∧ EnvSameId r.1 e) →
      (∀ resp ∈ (webhookSeqM rest st).1, resp = Except.ok (200, okBody)) ∧
      (webhookSeqM rest st).2.2 = [] ∧
      (JVal.jstr e, t1) ∈ (webhookSeqM rest st).2.1.processed := by
  intro rest
  induction rest with
  | nil =>
    intro st hmem hT
    exact ⟨by simp [webhookSeqM], rfl, hmem⟩
  | cons r rs ih =>
    intro st hmem hT
    obtain ⟨ht, fs', hs', h1, h2, h3, h4, h6⟩ := hT r (List.mem_cons_self _ _)
    have hsv : (JVal.jstr e, t1) ∈ sweep st.processed r.2.1 := mem_sweep hmem ht
    have hck : containsKey (sweep st.processed r.2.1) (JVal.jstr e) = true :=
      containsKey_of_mem hsv
    have hw := webhook_dup st r.2.1 r.2.2 h1 h2 h3 h4 h6 h7 hck
    have hmem1 : (JVal.jstr e, t1) ∈
        ({ st with processed := sweep st.processed r.2.1 } : St).processed := hsv
    obtain ⟨ha, hb, hc2⟩ := ih { st with processed := sweep st.processed r.2.1 } hmem1
      (fun x hx => hT x (List.mem_cons_of_mem _ hx))
    refine ⟨?_, ?_, ?_⟩
    · intro resp hresp
      simp only [webhookSeqM, hw] at hresp
      rcases List.mem_cons.mp hresp with h | h
      · exact h
      · exact ha resp h
    · simp only [webhookSeqM, hw]
      simpa using hb
    · simp only [webhookSeqM, hw]
      exact hc2

/-! ### C1 -/

/-- C1, amended: for every inbound body that parses as a JSON object and is
not a url_verification envelope, the handler returns HTTP 200 with a JSON
body, whatever event processing does internally. -/
theorem c1_object_body_always_acked
    {raw : String} {fs : List (String × JVal)} (st : St) (now : Int) (w : World)
    (h1 : loads raw = some (JVal.jobj fs))
    (h2 : isStrO (dlookup fs "type") "url_verification" = false) :
    ∃ body st1 effs,
      feishu_webhook raw st now w = (Except.ok (200, body), st1, effs) := by
  rw [webhook_event_branch st now w h1 h2]
  rcases hr : (handle_event (JVal.jobj fs) st now w).1 with er | u
  · exact ⟨evtErrBody er, (handle_event (JVal.jobj fs) st now w).2.1,
      (handle_event (JVal.jobj fs) st now w).2.2, by simp only [ackWrap, hr]⟩
  · exact ⟨okBody, (handle_event (JVal.jobj fs) st now w).2.1,
      (handle_event (JVal.jobj fs) st now w).2.2, by simp only [ackWrap, hr]⟩

/-- C1 witness: the empty JSON object body is acknowledged with 200. -/
theorem c1_object_body_always_acked_witness :
    ∃ body st1 effs,
      feishu_webhook "\x7b\x7d" initSt 0 w0 = (Except.ok (200, body), st1, effs) :=
  c1_object_body_always_acked initSt 0 w0 rfl rfl

/-- C1 counterexample: the body `[1]` parses as JSON and is not a
url_verification envelope, yet the view function raises (`list` has no
`.get`), so the platform receives Flask's HTTP 500, not a success
acknowledgement. -/
theorem c1_cex_nonobject_body_raises :
    loads "[1]" = some (JVal.jarr [JVal.jnum 1]) ∧
    (feishu_webhook "[1]" initSt 0 w0).1 = Except.error "AttributeError" :=
  ⟨rfl, rfl⟩

/-! ### C8 -/

/-- C8, amended: an unparseable body gets HTTP 400 with a JSON error body,
and whenever the view function itself returns a response, a non-success
status arises only for unparseable bodies; but a body parsing to a
non-object JSON value escapes as an uncaught exception (framework 500), so
the 400 is not the only non-success outcome. -/
theorem c8_badjson_400_amended :
    (∀ (raw : String) (st : St) (now : Int) (w : World), loads raw = none →
      feishu_webhook raw st now w = (Except.ok (400, badJsonBody), st, [])) ∧
    (∀ (raw : String) (st : St) (now : Int) (w : World) (d : JVal) (p : Nat × JVal),
      loads raw = some d → (feishu_webhook raw st now w).1 = Except.ok p →
      p.1 = 200) := by
  constructor
  · intro raw st now w h
    simp only [feishu_webhook, h]
  · intro raw st now w d p h hp
    rcases d with _ | b | n | s | xs | fs
    case jobj =>
      simp only [feishu_webhook, h] at hp
      by_cases ht : isStrO (dlookup fs "type") "url_verification" = true
      · rw [ht] at hp
        simp only [if_true] at hp
        injection hp with h2
        rw [← h2]
      · rw [Bool.not_eq_true] at ht
        rw [ht] at hp
        simp only [Bool.false_eq_true, if_false] at hp
        rcases hr : (handle_event (JVal.jobj fs) st now w).1 with er | u <;>
          simp only [ackWrap, hr] at hp <;>
          injection hp with h2 <;> rw [← h2]
    all_goals
      simp only [feishu_webhook, h] at hp
      exact Except.noConfusion hp

/-- C8 witness: an unparseable body gets the 400 JSON acknowledgement, and a
parseable object body gets status 200. -/
theorem c8_badjson_400_amended_witness :
    feishu_webhook "x" initSt 0 w0 = (Except.ok (400, badJsonBody), initSt, []) ∧
    (200, okBody).1 = 200 :=
  ⟨c8_badjson_400_amended.1 "x" initSt 0 w0 rfl,
   c8_badjson_400_amended.2 "\x7b\x7d" initSt 0 w0 (JVal.jobj []) (200, okBody) rfl rfl⟩

/-- C8 counterexample: the body `[]` is parseable JSON, yet the handler
neither returns the 400 error nor any success response — it raises, and the
framework turns that into HTTP 500, a second source of non-success statuses. -/
theorem c8_cex_parseable_body_500 :
    loads "[]" = some (JVal.jarr []) ∧
    (feishu_webhook "[]" initSt 0 w0).1 = Except.error "AttributeError" :=
  ⟨rfl, rfl⟩

/-! ### C3 -/

/-- C3, amended: on a 200 response the client returns
`choices[0].message.content` when that path exists; any 200 response
lacking the structured path yields the fixed exception-fallback string —
there is no flat text-field fallback and no separate "no content" message;
a parsed non-success response yields the fixed failure string; an
unparseable body or a raised request yields the exception-fallback string. -/
theorem c3_parse_order_amended :
    (∀ (p b : String) (d c : JVal), loads b = some d → qwenExtract d = some c →
      call_qwen p (NetOutcome.resp 200 b) = c) ∧
    (∀ (p b : String) (d : JVal), loads b = some d → qwenExtract d = none →
      call_qwen p (NetOutcome.resp 200 b) = JVal.jstr qwenExnMsg) ∧
    (∀ (p : String) (s : Int) (b : String) (d : JVal), loads b = some d →
      (s == 200) = false → call_qwen p (NetOutcome.resp s b) = JVal.jstr qwenErrMsg) ∧
    (∀ p b : String, loads b = none →
      call_qwen p (NetOutcome.resp 200 b) = JVal.jstr qwenExnMsg) ∧
    (∀ p : String, call_qwen p NetOutcome.raise = JVal.jstr qwenExnMsg) := by
  refine ⟨?_, ?_, ?_, ?_, ?_⟩
  · intro p b d c h1 h2
    simp [call_qwen, call_qwen_try, h1, h2]
  · intro p b d h1 h2
    simp [call_qwen, call_qwen_try, h1, h2]
  · intro p s b d h1 h2
    simp [call_qwen, call_qwen_try, h1, h2]
  · intro p b h1
    simp [call_qwen, call_qwen_try, h1]
  · intro p
    rfl

/-- C3 witness: the five cases at concrete inputs — structured content "re"
extracted; a flat text-only body falling to the exception string; status
500 giving the failure string; an unparseable body and a raised request
giving the exception string. -/
theorem c3_parse_order_amended_witness :
    call_qwen "q" (NetOutcome.resp 200 qwenBodyOk) = JVal.jstr "re" ∧
    call_qwen "q" (NetOutcome.resp 200 qwenBodyFlat) = JVal.jstr qwenExnMsg ∧
    call_qwen "q" (NetOutcome.resp 500 "\x7b\x7d") = JVal.jstr qwenErrMsg ∧
    call_qwen "q" (NetOutcome.resp 200 "\x7b") = JVal.jstr qwenExnMsg ∧
    call_qwen "q" NetOutcome.raise = JVal.jstr qwenExnMsg :=
  ⟨c3_parse_order_amended.1 "q" qwenBodyOk qwenDataOk (JVal.jstr "re") rfl rfl,
   c3_parse_order_amended.2.1 "q" qwenBodyFlat
     (JVal.jobj [("text", JVal.jstr "hello")]) rfl rfl,
   c3_parse_order_amended.2.2.1 "q" 500 "\x7b\x7d" (JVal.jobj []) rfl rfl,
   c3_parse_order_amended.2.2.2.1 "q" "\x7b" rfl,
   c3_parse_order_amended.2.2.2.2 "q"⟩

/-- C3 counterexample: a 200 response whose body is exactly a flat
text field is claimed to produce "hello"; the code has no such fallback and
returns the fixed exception string instead. -/
theorem c3_cex_no_flat_text_fallback :
    call_qwen "hi" (NetOutcome.resp 200 qwenBodyFlat) = JVal.jstr qwenExnMsg ∧
    call_qwen "hi" (NetOutcome.resp 200 qwenBodyFlat) ≠ JVal.jstr "hello" := by
  refine ⟨rfl, ?_⟩
  intro h
  rw [show call_qwen "hi" (NetOutcome.resp 200 qwenBodyFlat) = JVal.jstr qwenExnMsg
    from rfl] at h
  injection h with h2
  exact absurd h2 (by decide)

/-! ### C4 -/

/-- C4, amended: `call_qwen` never lets an exception reach its caller — any
raised exception becomes the fixed exception-fallback string — and every
result is either one of the two fixed fallback strings or the raw
`choices[0].message.content` value of a parsed 200 response, which is a
string only when the provider sent one. -/
theorem c4_no_raise_amended (p : String) (net : NetOutcome) :
    (∀ e : String, call_qwen_try p net = Except.error e →
      call_qwen p net = JVal.jstr qwenExnMsg) ∧
    (call_qwen p net = JVal.jstr qwenExnMsg ∨
     call_qwen p net = JVal.jstr qwenErrMsg ∨
     ∃ (s : Int) (b : String) (d : JVal), net = NetOutcome.resp s b ∧
       loads b = some d ∧ (s == 200) = true ∧
       qwenExtract d = some (call_qwen p net)) := by
  constructor
  · intro e h
    simp [call_qwen, h]
  · rcases net with _ | ⟨s, b⟩
    · exact Or.inl rfl
    · rcases hl : loads b with _ | d
      · exact Or.inl (by simp [call_qwen, call_qwen_try, hl])
      · by_cases hs : (s == 200) = true
        · rcases hx : qwenExtract d with _ | c
          · exact Or.inl (by simp [call_qwen, call_qwen_try, hl, hs, hx])
          · refine Or.inr (Or.inr ⟨s, b, d, rfl, hl, hs, ?_⟩)
            rw [show call_qwen p (NetOutcome.resp s b) = c by
              simp [call_qwen, call_qwen_try, hl, hs, hx]]
            exact hx
        · rw [Bool.not_eq_true] at hs
          exact Or.inr (Or.inl (by simp [call_qwen, call_qwen_try, hl, hs]))

/-- C4 witness: at a raised request the exception is caught and converted to
the fixed exception-fallback string. -/
theorem c4_no_raise_amended_witness :
    call_qwen "q" NetOutcome.raise = JVal.jstr qwenExnMsg ∧
    (call_qwen "q" NetOutcome.raise = JVal.jstr qwenExnMsg ∨
     call_qwen "q" NetOutcome.raise = JVal.jstr qwenErrMsg ∨
     ∃ (s : Int) (b : String) (d : JVal), NetOutcome.raise = NetOutcome.resp s b ∧
       loads b = some d ∧ (s == 200) = true ∧
       qwenExtract d = some (call_qwen "q" NetOutcome.raise)) :=
  ⟨(c4_no_raise_amended "q" NetOutcome.raise).1 "RequestException" rfl,
   (c4_no_raise_amended "q" NetOutcome.raise).2⟩

/-- C4 counterexample: a structurally valid 200 response whose content
field is the number 5 makes `call_qwen` return that number — not a string,
falsifying the "returns a string" part of the claim. -/
theorem c4_cex_nonstring_content :
    call_qwen "q" (NetOutcome.resp 200 qwenBodyNum) = JVal.jnum 5 ∧
    ∀ s : String, call_qwen "q" (NetOutcome.resp 200 qwenBodyNum) ≠ JVal.jstr s := by
  refine ⟨rfl, ?_⟩
  intro s h
  rw [show call_qwen "q" (NetOutcome.resp 200 qwenBodyNum) = JVal.jnum 5
    from rfl] at h
  exact JVal.noConfusion h

/-! ### C6 -/

/-- C6: when a truthy token is cached and the clock has not yet reached the
stored deadline — set by a successful fetch to the server expiry minus the
60-second safety margin — `get_tenant_access_token` returns the cached
token, performs no network effect, and leaves the state unchanged. -/
theorem c6_cache_hit_no_fetch (st : St) (now : Int) (net : NetOutcome)
    (h1 : pyTruthyO st.accessToken = true) (h2 : now < st.tokenExpire) :
    get_tenant_access_token st now net = (Except.ok st.accessToken, st, []) := by
  simp only [get_tenant_access_token, tokenCacheFresh, h1, decide_eq_true h2,
    Bool.and_self, if_true]

/-- C6 witness: a cached token "tok" with deadline 100 is returned at time 0
with no fetch, even though the network would raise. -/
theorem c6_cache_hit_no_fetch_witness :
    get_tenant_access_token ⟨[], some (JVal.jstr "tok"), 100⟩ 0 NetOutcome.raise =
      (Except.ok (some (JVal.jstr "tok")), ⟨[], some (JVal.jstr "tok"), 100⟩, []) :=
  c6_cache_hit_no_fetch ⟨[], some (JVal.jstr "tok"), 100⟩ 0 NetOutcome.raise rfl
    (by decide)

/-! ### C7 -/

/-- C7, amended: when the token fetch fails with a non-success status whose
body parses as JSON, or with a 200 body that parses to an object missing
the token field, the function returns None (the error result) and the
cached token and expiry are left exactly as they were; when the failure
response's body is not JSON, `resp.json()` — outside any try — raises and
the exception propagates instead of an error result being returned, the
cache again untouched. -/
theorem c7_failed_fetch_keeps_cache :
    (∀ (st : St) (now s : Int) (body : String) (d : JVal),
      tokenCacheFresh st now = false → loads body = some d → (s != 200) = true →
      get_tenant_access_token st now (NetOutcome.resp s body) =
        (Except.ok none, st, [Eff.tokenFetch])) ∧
    (∀ (st : St) (now : Int) (body : String) (ds : List (String × JVal)),
      tokenCacheFresh st now = false → loads body = some (JVal.jobj ds) →
      dlookup ds "tenant_access_token" = none →
      get_tenant_access_token st now (NetOutcome.resp 200 body) =
        (Except.ok none, st, [Eff.tokenFetch])) ∧
    (∀ (st : St) (now s : Int) (body : String),
      tokenCacheFresh st now = false → loads body = none →
      get_tenant_access_token st now (NetOutcome.resp s body) =
        (Except.error "JSONDecodeError", st, [Eff.tokenFetch])) := by
  refine ⟨?_, ?_, ?_⟩
  · intro st now s body d hf hl hs
    simp only [get_tenant_access_token, hf, Bool.false_eq_true, if_false,
      tokenFetchStep, hl, hs, if_true]
  · intro st now body ds hf hl hm
    simp only [get_tenant_access_token, hf, Bool.false_eq_true, if_false,
      tokenFetchStep, hl, hm]
    simp
  · intro st now s body hf hl
    simp only [get_tenant_access_token, hf, Bool.false_eq_true, if_false,
      tokenFetchStep, hl]

/-- C7 witness: a 500 response and a 200 response with an empty object body
both leave the initial cache untouched and return None; a 500 response with
a non-JSON body raises, the cache also untouched. -/
theorem c7_failed_fetch_keeps_cache_witness :
    get_tenant_access_token initSt 0 (NetOutcome.resp 500 "\x7b\x7d") =
      (Except.ok none, initSt, [Eff.tokenFetch]) ∧
    get_tenant_access_token initSt 0 (NetOutcome.resp 200 "\x7b\x7d") =
      (Except.ok none, initSt, [Eff.tokenFetch]) ∧
    get_tenant_access_token initSt 0 (NetOutcome.resp 500 "oops") =
      (Except.error "JSONDecodeError", initSt, [Eff.tokenFetch]) :=
  ⟨c7_failed_fetch_keeps_cache.1 initSt 0 500 "\x7b\x7d" (JVal.jobj []) rfl rfl rfl,
   c7_failed_fetch_keeps_cache.2.1 initSt 0 "\x7b\x7d" [] rfl rfl rfl,
   c7_failed_fetch_keeps_cache.2.2 initSt 0 500 "oops" rfl rfl⟩

/-- C7 counterexample: a failed fetch (status 500) whose response body is
not JSON — a typical HTML error page — does not yield the claimed error
result: `data = resp.json()` at app.py line 42 stands outside any try, so
the exception propagates to the caller; only the cache neutrality of the
claim survives on this path. -/
theorem c7_cex_unparseable_failure_body :
    get_tenant_access_token initSt 0 (NetOutcome.resp 500 "oops") =
      (Except.error "JSONDecodeError", initSt, [Eff.tokenFetch]) := rfl

/-! ### C2 -/

/-- C2: N deliveries of event envelopes sharing one non-empty event_id —
the first an effect-triggering message envelope at `t1`, the rest arbitrary
event envelopes with that id within the TTL window of `t1` — perform the
completion call and the dispatch call exactly once in total, and every
delivery is acknowledged with HTTP 200. -/
theorem c2_dedupe_exactly_once
    {raw : String} {fs hs es ms cfs : List (String × JVal)} {e : String} {cv : JVal}
    {cs ts : String} (st : St) (t1 : Int) (w1 : World)
    (rest : List (String × Int × World))
    (h1 : loads raw = some (JVal.jobj fs))
    (h2 : isStrO (dlookup fs "type") "url_verification" = false)
    (h3 : isStrO (dlookup fs "schema") "2.0" = true)
    (h4 : dlookup fs "header" = some (JVal.jobj hs))
    (h5 : dlookup hs "event_type" = some (JVal.jstr "im.message.receive_v1"))
    (h6 : dlookup hs "event_id" = some (JVal.jstr e))
    (h7 : (e == "") = false)
    (h8 : dlookup fs "event" = some (JVal.jobj es))
    (h9 : dlookup es "message" = some (JVal.jobj ms))
    (h10 : dlookup ms "chat_id" = some cv)
    (h11 : cv.truthy = true)
    (h12 : dlookup ms "message_type" = some (JVal.jstr "text"))
    (h13 : dlookup ms "content" = some (JVal.jstr cs))
    (h14 : loads cs = some (JVal.jobj cfs))
    (h15 : dlookup cfs "text" = some (JVal.jstr ts))
    (h16 : (pyStrip ts == "") = false)
    (h17 : containsKey st.processed (JVal.jstr e) = false)
    (hT : ∀ r ∈ rest, r.2.1 - t1 ≤ PROCESSED_TTL ∧ EnvSameId r.1 e) :
    qwenCount (webhookSeqM ((raw, t1, w1) :: rest) st).2.2 = 1 ∧
    sendCount (webhookSeqM ((raw, t1, w1) :: rest) st).2.2 = 1 ∧
    ∀ resp ∈ (webhookSeqM ((raw, t1, w1) :: rest) st).1,
      ∃ b, resp = Except.ok (200, b) := by
  have hsw := containsKey_sweep_false t1 h17
  obtain ⟨body, st1, effs, hw, hp, hq, hs'⟩ :=
    webhook_msg_fresh st t1 w1 h1 h2 h3 h4 h5 h6 h7 h8 h9 h10 h11 h12 h13 h14 h15
      h16 hsw
  have hmem : (JVal.jstr e, t1) ∈ st1.processed := by
    rw [hp]
    exact List.mem_append_right _ (List.mem_singleton.mpr rfl)
  obtain ⟨ha, hb, _⟩ := dup_deliveries h7 rest st1 hmem hT
  refine ⟨?_, ?_, ?_⟩
  · simp only [webhookSeqM, hw]
    rw [qwenCount_append, hb]
    simpa [qwenCount] using hq
  · simp only [webhookSeqM, hw]
    rw [sendCount_append, hb]
    simpa [sendCount] using hs'
  · intro resp hresp
    simp only [webhookSeqM, hw] at hresp
    rcases List.mem_cons.mp hresp with h | h
    · exact ⟨body, h⟩
    · exact ⟨okBody, ha resp h⟩

/-! ### C5 -/

/-- C5: on an envelope whose event_id only has dedupe records older than the
TTL, the sweep removes them before the admission check, so the event is
processed again (one completion and one dispatch call), and afterwards the
dedupe map holds no entry older than the TTL. -/
theorem c5_sweep_then_reprocess
    {raw : String} {fs hs es ms cfs : List (String × JVal)} {e : String} {cv : JVal}
    {cs ts : String} (st : St) (now : Int) (w : World)
    (h1 : loads raw = some (JVal.jobj fs))
    (h2 : isStrO (dlookup fs "type") "url_verification" = false)
    (h3 : isStrO (dlookup fs "schema") "2.0" = true)
    (h4 : dlookup fs "header" = some (JVal.jobj hs))
    (h5 : dlookup hs "event_type" = some (JVal.jstr "im.message.receive_v1"))
    (h6 : dlookup hs "event_id" = some (JVal.jstr e))
    (h7 : (e == "") = false)
    (h8 : dlookup fs "event" = some (JVal.jobj es))
    (h9 : dlookup es "message" = some (JVal.jobj ms))
    (h10 : dlookup ms "chat_id" = some cv)
    (h11 : cv.truthy = true)
    (h12 : dlookup ms "message_type" = some (JVal.jstr "text"))
    (h13 : dlookup ms "content" = some (JVal.jstr cs))
    (h14 : loads cs = some (JVal.jobj cfs))
    (h15 : dlookup cfs "text" = some (JVal.jstr ts))
    (h16 : (pyStrip ts == "") = false)
    (hstale : ∀ p ∈ st.processed, keyEq p.1 (JVal.jstr e) = true →
      now - p.2 > PROCESSED_TTL) :
    ∃ body st1 effs,
      feishu_webhook raw st now w = (Except.ok (200, body), st1, effs) ∧
      qwenCount effs = 1 ∧ sendCount effs = 1 ∧
      st1.processed = sweep st.processed now ++ [(JVal.jstr e, now)] ∧
      ∀ p ∈ st1.processed, now - p.2 ≤ PROCESSED_TTL := by
  have hsw := containsKey_sweep_false_of_stale hstale
  obtain ⟨body, st1, effs, hw, hp, hq, hs'⟩ :=
    webhook_msg_fresh st now w h1 h2 h3 h4 h5 h6 h7 h8 h9 h10 h11 h12 h13 h14 h15
      h16 hsw
  refine ⟨body, st1, effs, hw, hq, hs', hp, ?_⟩
  intro p hpm
  rw [hp] at hpm
  rcases List.mem_append.mp hpm with h | h
  · exact sweep_mem_le h
  · rw [List.mem_singleton] at h
    subst h
    simp [PROCESSED_TTL]

/-! ### C9 -/

/-- C9: a message envelope whose event_id is absent (or falsy) is never
deduplicated — every delivery performs one completion and one dispatch
call, every delivery is acknowledged with HTTP 200, and the dedupe map
receives no entry (it only undergoes the sweeps). -/
theorem c9_no_event_id_always_processed
    {raw : String} {fs hs es ms cfs : List (String × JVal)} {cv : JVal}
    {cs ts : String}
    (h1 : loads raw = some (JVal.jobj fs))
    (h2 : isStrO (dlookup fs "type") "url_verification" = false)
    (h3 : isStrO (dlookup fs "schema") "2.0" = true)
    (h4 : dlookup fs "header" = some (JVal.jobj hs))
    (h5 : dlookup hs "event_type" = some (JVal.jstr "im.message.receive_v1"))
    (h6 : pyTruthyO (dlookup hs "event_id") = false)
    (h8 : dlookup fs "event" = some (JVal.jobj es))
    (h9 : dlookup es "message" = some (JVal.jobj ms))
    (h10 : dlookup ms "chat_id" = some cv)
    (h11 : cv.truthy = true)
    (h12 : dlookup ms "message_type" = some (JVal.jstr "text"))
    (h13 : dlookup ms "content" = some (JVal.jstr cs))
    (h14 : loads cs = some (JVal.jobj cfs))
    (h15 : dlookup cfs "text" = some (JVal.jstr ts))
    (h16 : (pyStrip ts == "") = false) :
    ∀ (rqs : List (Int × World)) (st : St),
      qwenCount (webhookSeq raw rqs st).2.2 = rqs.length ∧
      sendCount (webhookSeq raw rqs st).2.2 = rqs.length ∧
      (∀ resp ∈ (webhookSeq raw rqs st).1, ∃ b, resp = Except.ok (200, b)) ∧
      (webhookSeq raw rqs st).2.1.processed =
        rqs.foldl (fun m r => sweep m r.1) st.processed := by
  intro rqs
  induction rqs with
  | nil =>
    intro st
    exact ⟨rfl, rfl, by simp [webhookSeq], rfl⟩
  | cons r rs ih =>
    intro st
    obtain ⟨body, st1, effs, hw, hp, hq, hs'⟩ :=
      webhook_msg_noid st r.1 r.2 h1 h2 h3 h4 h5 h6 h8 h9 h10 h11 h12 h13 h14
        h15 h16
    obtain ⟨ihq, ihs, ihr, ihp⟩ := ih st1
    refine ⟨?_, ?_, ?_, ?_⟩
    · simp only [webhookSeq, hw]
      rw [qwenCount_append, hq, ihq, List.length_cons]
      omega
    · simp only [webhookSeq, hw]
      rw [sendCount_append, hs', ihs, List.length_cons]
      omega
    · intro resp hresp
      simp only [webhookSeq, hw] at hresp
      rcases List.mem_cons.mp hresp with h | h
      · exact ⟨body, h⟩
      · exact ihr resp h
    · simp only [webhookSeq, hw]
      rw [ihp, hp, List.foldl_cons]

/-! ### C10 -/

/-- C10: an admitted text message event with non-empty text but a missing or
falsy chat_id performs no completion call and no dispatch call — the
effect trace is empty — and is still acknowledged with HTTP 200; its
event_id is recorded all the same. -/
theorem c10_no_chat_id_no_side_effects
    {raw : String} {fs hs es ms cfs : List (String × JVal)} {e : String}
    {cs ts : String} (st : St) (now : Int) (w : World)
    (h1 : loads raw = some (JVal.jobj fs))
    (h2 : isStrO (dlookup fs "type") "url_verification" = false)
    (h3 : isStrO (dlookup fs "schema") "2.0" = true)
    (h4 : dlookup fs "header" = some (JVal.jobj hs))
    (h5 : dlookup hs "event_type" = some (JVal.jstr "im.message.receive_v1"))
    (h6 : dlookup hs "event_id" = some (JVal.jstr e))
    (h7 : (e == "") = false)
    (h8 : dlookup fs "event" = some (JVal.jobj es))
    (h9 : dlookup es "message" = some (JVal.jobj ms))
    (hC : pyTruthyO (dlookup ms "chat_id") = false)
    (h12 : dlookup ms "message_type" = some (JVal.jstr "text"))
    (h13 : dlookup ms "content" = some (JVal.jstr cs))
    (h14 : loads cs = some (JVal.jobj cfs))
    (h15 : dlookup cfs "text" = some (JVal.jstr ts))
    (h16 : (pyStrip ts == "") = false)
    (h17 : containsKey st.processed (JVal.jstr e) = false) :
    feishu_webhook raw st now w =
      (Except.ok (200, okBody),
       { st with processed := sweep st.processed now ++ [(JVal.jstr e, now)] },
       []) := by
  have hsw := containsKey_sweep_false now h17
  obtain ⟨sp, sa, se⟩ := st
  rw [webhook_event_branch _ _ _ h1 h2, handle_event_unfold _ _ _ h3 h4, h5, h6, h8]
  simp only [Option.getD_some]
  rw [dedup_fresh _ _ _ _ _ h7 (by simpa using hsw)]
  rw [processEvent_nochat _ _ _ h9 hC h13 h14 h15]
  rfl

set_option maxRecDepth 8000 in
/-- C2 witness: the `rawMsg` envelope at time 0 followed by the different
envelope `rawMsgB` with the same event_id at time 100 perform one
completion call and one dispatch call in total, and both deliveries get
200. -/
theorem c2_dedupe_exactly_once_witness :
    qwenCount (webhookSeqM [(rawMsg, 0, w0), (rawMsgB, 100, w0)] initSt).2.2 = 1 ∧
    sendCount (webhookSeqM [(rawMsg, 0, w0), (rawMsgB, 100, w0)] initSt).2.2 = 1 ∧
    ∀ resp ∈ (webhookSeqM [(rawMsg, 0, w0), (rawMsgB, 100, w0)] initSt).1,
      ∃ b, resp = Except.ok (200, b) :=
  @c2_dedupe_exactly_once rawMsg fsC hsC esC msC cfsC "E1" (JVal.jstr "C1")
    "\x7b\"text\":\"hi\"\x7d" "hi" initSt 0 w0 [(rawMsgB, 100, w0)]
    rfl rfl rfl rfl rfl rfl rfl rfl rfl rfl rfl rfl rfl rfl rfl rfl rfl
    (by
      intro r hr
      rw [List.mem_singleton] at hr
      subst hr
      exact ⟨by decide, fsB, hsC, rfl, rfl, rfl, rfl, rfl⟩)

set_option maxRecDepth 8000 in
/-- C5 witness: with a record of E1 aged 1000 > TTL, the envelope is
reprocessed at time 1000 and the swept map holds only the fresh entry. -/
theorem c5_sweep_then_reprocess_witness :
    ∃ body st1 effs,
      feishu_webhook rawMsg ⟨[(JVal.jstr "E1", 0)], none, 0⟩ 1000 w0 =
        (Except.ok (200, body), st1, effs) ∧
      qwenCount effs = 1 ∧ sendCount effs = 1 ∧
      st1.processed = sweep [(JVal.jstr "E1", 0)] 1000 ++ [(JVal.jstr "E1", 1000)] ∧
      ∀ p ∈ st1.processed, 1000 - p.2 ≤ PROCESSED_TTL :=
  @c5_sweep_then_reprocess rawMsg fsC hsC esC msC cfsC "E1" (JVal.jstr "C1")
    "\x7b\"text\":\"hi\"\x7d" "hi" ⟨[(JVal.jstr "E1", 0)], none, 0⟩ 1000 w0
    rfl rfl rfl rfl rfl rfl rfl rfl rfl rfl rfl rfl rfl rfl rfl rfl
    (by decide)

set_option maxRecDepth 8000 in
/-- C9 witness: the `rawNoId` envelope delivered twice is processed twice
(two completion and two dispatch calls) and records nothing. -/
theorem c9_no_event_id_always_processed_witness :
    qwenCount (webhookSeq rawNoId [(0, w0), (5, w0)] initSt).2.2 = 2 ∧
    sendCount (webhookSeq rawNoId [(0, w0), (5, w0)] initSt).2.2 = 2 ∧
    (∀ resp ∈ (webhookSeq rawNoId [(0, w0), (5, w0)] initSt).1,
      ∃ b, resp = Except.ok (200, b)) ∧
    (webhookSeq rawNoId [(0, w0), (5, w0)] initSt).2.1.processed =
      [((0 : Int), w0), (5, w0)].foldl (fun m r => sweep m r.1) initSt.processed :=
  @c9_no_event_id_always_processed rawNoId fsC9 hsC9 esC msC cfsC (JVal.jstr "C1")
    "\x7b\"text\":\"hi\"\x7d" "hi"
    rfl rfl rfl rfl rfl rfl rfl rfl rfl rfl rfl rfl rfl rfl rfl
    [(0, w0), (5, w0)] initSt

set_option maxRecDepth 8000 in
/-- C10 witness: the `rawNoChat` envelope is acknowledged with 200, causes
no side effect, and its event_id is recorded. -/
theorem c10_no_chat_id_no_side_effects_witness :
    feishu_webhook rawNoChat initSt 0 w0 =
      (Except.ok (200, okBody),
       { initSt with processed := sweep initSt.processed 0 ++ [(JVal.jstr "E1", 0)] },
       []) :=
  @c10_no_chat_id_no_side_effects rawNoChat fsC10 hsC esC10 msC10 cfsC "E1"
    "\x7b\"text\":\"hi\"\x7d" "hi" initSt 0 w0
    rfl rfl rfl rfl rfl rfl rfl rfl rfl rfl rfl rfl rfl rfl rfl rfl
